import Mathlib

/-!
Verification development for the mcp-jira-rs repository.

The definitions below shallowly embed the schema-resolution and
sprint-analysis logic of `src/jira.rs` (pure cores of the async handlers:
the HTTP fetch is modelled by explicit state passing over a queue of
responses) together with the data declarations of `src/domains/issue.rs`,
`src/domains/enums.rs` and `src/families/metadata.rs` that they consume.
Rust `f64` values read from JSON are modelled as rationals; the properties
proved about them are control-flow properties (guards and `Option`
presence) that do not depend on rounding.
-/

namespace McpJira

/-- ASCII lowercasing of one character: bytes `A`..`Z` map to `a`..`z`,
everything else is unchanged. Models Rust's `u8::to_ascii_lowercase`,
which `str::eq_ignore_ascii_case` applies bytewise; restricted to the
ASCII range it also models `str::to_lowercase`. -/
def asciiLower (c : Char) : Char :=
  if 65 ≤ c.toNat ∧ c.toNat ≤ 90 then Char.ofNat (c.toNat + 32) else c

/-- The character list of a string with every character ASCII-lowercased. -/
def lowerStr (s : String) : List Char :=
  s.data.map asciiLower

/-- `a.eq_ignore_ascii_case(b)` from Rust: equality after bytewise ASCII
lowercasing. On valid UTF-8 the bytewise comparison coincides with the
character-wise one because `A`..`Z` bytes occur only as ASCII characters. -/
def eqIgnoreAsciiCase (a b : String) : Bool :=
  decide (lowerStr a = lowerStr b)

/-- Substring test on character lists, modelling Rust's `str::contains`
with a string pattern (an ASCII pattern matches bytewise iff it matches
character-wise). -/
def hasSubstr (pat : List Char) : List Char → Bool
  | [] => pat.isEmpty
  | c :: rest => pat.isPrefixOf (c :: rest) || hasSubstr pat rest

/-- `families::metadata::Field` (src/families/metadata.rs:173). The
serialization-only optional attributes (`key`, `orderable`, `navigable`,
`searchable`, `clause_names`, `schema`) are never consulted by the code
under verification and are omitted. -/
structure Field where
  id : String
  name : String
  custom : Option Bool

/-- The per-field test of the loop body of `find_story_points_field_id`
(src/jira.rs:1779): `candidates.iter().any(|&c| field.name.eq_ignore_ascii_case(c))`. -/
def fieldMatches (candidates : List String) (f : Field) : Bool :=
  candidates.any (fun c => eqIgnoreAsciiCase f.name c)

/-- The scanning loop of `find_story_points_field_id` (src/jira.rs:1778-1782),
generalized over the candidate array: iterate the fetched `fields` in catalog
order and return the id of the first field whose name matches ANY candidate
case-insensitively (`return Ok(field.id)` is the early exit). -/
def findFieldIdCore (candidates : List String) : List Field → Option String
  | [] => none
  | f :: rest =>
    if fieldMatches candidates f then some f.id
    else findFieldIdCore candidates rest

/-- The candidate array hard-coded in `find_story_points_field_id`
(src/jira.rs:1776). -/
def storyPointsCandidates : List String :=
  ["Story Points", "Story point estimate"]

/-- Pure core of `find_story_points_field_id` (src/jira.rs:1774-1785) after
the `fetch_fields_internal` await: scan the catalog, and when the scan finds
nothing fall back to the hard-coded `Ok("customfield_10016")`. -/
def find_story_points_field_id (fields : List Field) : String :=
  (findFieldIdCore storyPointsCandidates fields).getD "customfield_10016"

/-- The metadata gateway for `listFields`, modelled as the queue of catalogs
the successive `/rest/api/3/field` fetches would return. -/
abbrev Gateway := List (List Field)

/-- `fetch_fields_internal` (src/jira.rs:1769-1772): one fetch consumes the
next response from the gateway queue (and fails when none is available). -/
def fetch_fields_internal : Gateway → Option (List Field × Gateway)
  | [] => none
  | catalog :: rest => some (catalog, rest)

/-- One invocation of `find_story_points_field_id` including its fetch:
`let fields = self.fetch_fields_internal().await?` followed by the pure scan.
The `Jira` struct (src/jira.rs:11-18) holds only `tool_router`, the HTTP
`client` and the `workspace`/`username`/`password` strings — no cached
metadata — so the call's result is a function of the fetched catalog alone. -/
def findStoryPointsCall (gw : Gateway) : Option (String × Gateway) :=
  match fetch_fields_internal gw with
  | none => none
  | some (catalog, rest) => some (find_story_points_field_id catalog, rest)

/-- `n` sequential story-points resolutions, each performing its own fetch;
stops early if the gateway runs out of responses. -/
def runStoryPointsResolutions : Nat → Gateway → List String × Gateway
  | 0, gw => ([], gw)
  | n + 1, gw =>
    match findStoryPointsCall gw with
    | none => ([], gw)
    | some (r, gw2) =>
      let p := runStoryPointsResolutions n gw2
      (r :: p.1, p.2)

/-- The metric test of `analyze_sprint_internal` (src/jira.rs:1619-1621):
the story-points field is discovered only when one of `velocity`,
`completion`, `unestimated` was requested. -/
def metricsNeedStoryPoints (metrics : List String) : Bool :=
  metrics.contains "velocity" || metrics.contains "completion"
    || metrics.contains "unestimated"

/-- The story-points field selection of `analyze_sprint_internal`
(src/jira.rs:1619-1625): fetch-and-resolve when a metric needs story points,
otherwise use the literal `"customfield_10016"` without touching the
gateway. -/
def storyPointsFieldIdForMetrics (metrics : List String) (gw : Gateway) :
    Option (String × Gateway) :=
  if metricsNeedStoryPoints metrics then findStoryPointsCall gw
  else some ("customfield_10016", gw)

/-- A JSON value as read by the sprint-analysis loop (`serde_json::Value`):
only the numeric, string and object observations are made by the code under
verification; every other shape behaves like `null` there. Numbers are
modelled as rationals. -/
inductive JValue where
  | num : ℚ → JValue
  | str : String → JValue
  | obj : List (String × JValue) → JValue
  | null : JValue

/-- `Value::as_f64` (numeric payload or `None`). -/
def JValue.asF64 : JValue → Option ℚ
  | .num q => some q
  | _ => none

/-- `Value::as_str`. -/
def JValue.asStr : JValue → Option String
  | .str s => some s
  | _ => none

/-- `Value::as_object`. -/
def JValue.asObject : JValue → Option (List (String × JValue))
  | .obj o => some o
  | _ => none

/-- `HashMap::get` on an issue's field map, modelled on an association list
(Jira field maps have unique keys). -/
def lookupField : List (String × JValue) → String → Option JValue
  | [], _ => none
  | (k2, v) :: rest, k => if k2 = k then some v else lookupField rest k

/-- `families::issue::Issue` as consumed by `analyze_sprint_internal`:
the `key` and the `fields` map (the `id`/`self`/`expand`/`renderedFields`
attributes are never read there and are omitted). -/
structure Issue where
  key : String
  fields : List (String × JValue)

/-- `issue.fields.get(&story_points_field_id)` then `as_f64()`
(src/jira.rs:1652-1653 and 1682). -/
def pointsOf (spFieldId : String) (i : Issue) : Option ℚ :=
  (lookupField i.fields spFieldId).bind JValue.asF64

/-- The status-name navigation `fields.get("status")` → `as_object()` →
`get("name")` → `as_str()` used at src/jira.rs:1655-1657 and 1693-1696. -/
def statusName (i : Issue) : Option String :=
  (((lookupField i.fields "status").bind JValue.asObject).bind
      (fun o => lookupField o "name")).bind JValue.asStr

/-- The completed test of the velocity/completion loop (src/jira.rs:1658):
status name is exactly `"Done"` or `"Closed"` (case-sensitive). -/
def isDoneStatus (i : Issue) : Bool :=
  match statusName i with
  | some n => n == "Done" || n == "Closed"
  | none => false

/-- The accumulation loop of src/jira.rs:1651-1666: for each issue whose
story-points field reads as a number, add it to `total_points`, and also to
`completed_points` when the status is Done/Closed. Returns
`(total_points, completed_points)`. -/
def sumPoints (spFieldId : String) (issues : List Issue) : ℚ × ℚ :=
  issues.foldl
    (fun acc i =>
      match pointsOf spFieldId i with
      | some p => (acc.1 + p, if isDoneStatus i then acc.2 + p else acc.2)
      | none => acc)
    (0, 0)

/-- The blocked filter of src/jira.rs:1692-1699:
`status → as_object → name → as_str`, then lowercase-contains `"blocked"`,
with `unwrap_or(false)` when any step yields nothing. -/
def isBlockedIssue (i : Issue) : Bool :=
  ((statusName i).map (fun n => hasSubstr "blocked".data (lowerStr n))).getD false

/-- The claim-side blocked predicate, stated from the words of the claim:
an issue counts as blocked exactly when the lowercased name of its status
field contains the substring "blocked", and an issue with no readable
status name does not count. -/
def blockedPerClaim (i : Issue) : Bool :=
  match statusName i with
  | some n => hasSubstr "blocked".data (lowerStr n)
  | none => false

/-- `families::agile::SprintAnalysis` (src/families/agile.rs:252-268),
with `f64` modelled as `ℚ`. -/
structure SprintAnalysis where
  sprint_id : Int
  sprint_name : String
  sprint_state : String
  velocity : Option ℚ
  unestimated_issues : Option (List String)
  blocked_issues : Option (List String)
  total_points : Option ℚ
  completed_points : Option ℚ
  completion_percentage : Option ℚ

/-- The velocity/completion block of `analyze_sprint_internal`
(src/jira.rs:1647-1678): when requested, compute the two sums, set
`velocity`, and under the "completion" metric set `total_points`,
`completed_points` and the guarded `completion_percentage`
(`if total_points > 0.0` at src/jira.rs:1674). -/
def velocityCompletionBlock (metrics : List String) (spFieldId : String)
    (issues : List Issue) (a : SprintAnalysis) : SprintAnalysis :=
  if metrics.contains "velocity" || metrics.contains "completion" then
    let pts := sumPoints spFieldId issues
    let av :=
      if metrics.contains "velocity" then { a with velocity := some pts.2 }
      else a
    if metrics.contains "completion" then
      { av with
        total_points := some pts.1
        completed_points := some pts.2
        completion_percentage :=
          if 0 < pts.1 then some (pts.2 / pts.1 * 100) else none }
    else av
  else a

/-- The unestimated block of `analyze_sprint_internal`
(src/jira.rs:1680-1688): collect keys of issues whose story-points field
does not read as a number; only a nonempty list is recorded. -/
def unestimatedBlock (metrics : List String) (spFieldId : String)
    (issues : List Issue) (a : SprintAnalysis) : SprintAnalysis :=
  if metrics.contains "unestimated" then
    let un := (issues.filter (fun i => (pointsOf spFieldId i).isNone)).map Issue.key
    if un.isEmpty then a else { a with unestimated_issues := some un }
  else a

/-- The blocked block of `analyze_sprint_internal` (src/jira.rs:1690-1705):
collect keys of issues whose lowercased status name contains "blocked";
only a nonempty list is recorded. -/
def blockedBlock (metrics : List String) (issues : List Issue)
    (a : SprintAnalysis) : SprintAnalysis :=
  if metrics.contains "blocked" then
    let bl := (issues.filter isBlockedIssue).map Issue.key
    if bl.isEmpty then a else { a with blocked_issues := some bl }
  else a

/-- Pure core of `analyze_sprint_internal` (src/jira.rs:1635-1707) after the
sprint and issue fetches: starting from the all-`None` analysis record of
src/jira.rs:1635-1645, apply the velocity/completion block, the unestimated
block and the blocked block in source order. -/
def analyzeSprintCore (metrics : List String) (spFieldId : String)
    (sprintId : Int) (sprintName sprintState : String)
    (issues : List Issue) : SprintAnalysis :=
  let base : SprintAnalysis :=
    { sprint_id := sprintId, sprint_name := sprintName,
      sprint_state := sprintState, velocity := none,
      unestimated_issues := none, blocked_issues := none,
      total_points := none, completed_points := none,
      completion_percentage := none }
  blockedBlock metrics issues
    (unestimatedBlock metrics spFieldId issues
      (velocityCompletionBlock metrics spFieldId issues base))

/-- `domains::enums::Status` (src/domains/enums.rs:55-69): the closed set of
target statuses a caller may request. -/
inductive Status where
  | ToDo
  | InProgress
  | Done
  | InReview
  | Blocked
  | Cancelled

/-- The canonical display name of a target status, from the `Display`
implementation at src/domains/enums.rs:71-82. -/
def Status.display : Status → String
  | .ToDo => "To Do"
  | .InProgress => "In Progress"
  | .Done => "Done"
  | .InReview => "In Review"
  | .Blocked => "Blocked"
  | .Cancelled => "Cancelled"

/-- `domains::issue::StatusCategory` (src/domains/issue.rs:262-266). -/
structure StatusCategory where
  key : String

/-- `domains::issue::TransitionTo` (src/domains/issue.rs:255-260). -/
structure TransitionTo where
  name : String
  status_category : Option StatusCategory

/-- `domains::issue::Transition` (src/domains/issue.rs:248-253). The source
field `to` is a reserved token in Lean and is rendered `toDest`. -/
structure Transition where
  id : String
  name : String
  toDest : TransitionTo

/-- Modelled from the spec: the category-bucket map of spec §4.4 pass 3
(`ToDo→new, InProgress|InReview|Blocked→indeterminate, Done|Cancelled→done`).
The mapping function itself is part of the transition-resolution algorithm
missing from src/ (only the `Status` and category declarations exist). -/
def Status.categoryBucket : Status → String
  | .ToDo => "new"
  | .InProgress => "indeterminate"
  | .InReview => "indeterminate"
  | .Blocked => "indeterminate"
  | .Done => "done"
  | .Cancelled => "done"

/-- Pass-1 test: the transition's action name equals the target status's
canonical name case-insensitively (spec §4.4). -/
def transNameMatches (target : Status) (t : Transition) : Bool :=
  eqIgnoreAsciiCase t.name target.display

/-- Pass-2 test: the transition's destination status name equals the target
status's canonical name case-insensitively (spec §4.4). -/
def transToNameMatches (target : Status) (t : Transition) : Bool :=
  eqIgnoreAsciiCase t.toDest.name target.display

/-- Pass-3 test: the transition's destination status category key equals the
target's category bucket (spec §4.4); a transition without a declared
category never matches. -/
def transCategoryMatches (target : Status) (t : Transition) : Bool :=
  match t.toDest.status_category with
  | some c => c.key == target.categoryBucket
  | none => false

/-- Modelled from the spec: the three-pass transition resolver of spec §4.4.
The algorithm is not implemented under src/ — `handle_transition`
(src/jira.rs:1171-1180) posts a caller-resolved transition id, and only the
`Transition`/`TransitionTo`/`StatusCategory` declarations exist
(src/domains/issue.rs:243-266, in a module not compiled into the binary).
Pass 1 (action-name match), then pass 2 (destination-status-name match),
then pass 3 (category fallback); the returned id is the transition to
execute. -/
def resolveTransition (target : Status) (ts : List Transition) : Option String :=
  match ts.find? (transNameMatches target) with
  | some t => some t.id
  | none =>
    match ts.find? (transToNameMatches target) with
    | some t => some t.id
    | none => (ts.find? (transCategoryMatches target)).map Transition.id

/-- `IssueTypeDescriptor` of spec §3: `{id, name, untranslatedName,
isSubtask}`. Modelled from the spec: src/ has only
`families::metadata::IssueType` (src/families/metadata.rs:152-165) without
an `untranslatedName` attribute, and no resolver consuming it. -/
structure IssueTypeDescriptor where
  id : String
  name : String
  untranslatedName : Option String
  subtask : Bool

/-- Modelled from the spec: the per-entry test of spec §4.3 — `name` OR
`untranslatedName` equals the requested label case-insensitively. -/
def issueTypeMatches (label : String) (t : IssueTypeDescriptor) : Bool :=
  eqIgnoreAsciiCase t.name label ||
    (match t.untranslatedName with
     | some u => eqIgnoreAsciiCase u label
     | none => false)

/-- Modelled from the spec: the issue-type resolver of spec §4.3. The
resolution scan is not implemented under src/ —
`get_issue_types_for_project_internal` (src/jira.rs:1743-1755) returns the
raw issue-type JSON without matching. Scans the project's types linearly
and returns the first match's id and subtask flag. -/
def resolveIssueType (label : String) (types : List IssueTypeDescriptor) :
    Option (String × Bool) :=
  (types.find? (issueTypeMatches label)).map (fun t => (t.id, t.subtask))

/-- Modelled from the spec: the assignee resolver of spec §4.5. The sentinel
logic is not implemented under src/ — `handle_assign` (src/jira.rs:1160-1169)
forwards the caller's payload unchanged, and the sentinels are documented
only on the dead declaration `IssueAssignArgs` (src/domains/issue.rs:63).
`currentUserId` stands for the result of the `user_get_myself` lookup
(src/jira.rs:1029-1043) performed in the `"me"` branch. -/
def resolveAssignee (token : String) (currentUserId : String) : Option String :=
  if eqIgnoreAsciiCase token "me" then some currentUserId
  else if eqIgnoreAsciiCase token "unassigned" then some ""
  else some token

/-! ## Helper lemmas -/

theorem find_of_prefix_fail {α : Type} (p : α → Bool) (pre : List α) (a : α)
    (post : List α) (hpre : ∀ u ∈ pre, p u = false) (ha : p a = true) :
    (pre ++ a :: post).find? p = some a := by
  induction pre with
  | nil => simp [List.find?, ha]
  | cons x xs ih =>
    have hx : p x = false := hpre x (by simp)
    simp only [List.cons_append, List.find?, hx]
    exact ih (fun u hu => hpre u (by simp [hu]))

theorem find_of_all_fail {α : Type} (p : α → Bool) (l : List α)
    (h : ∀ u ∈ l, p u = false) : l.find? p = none := by
  induction l with
  | nil => rfl
  | cons x xs ih =>
    have hx : p x = false := h x (by simp)
    simp only [List.find?, hx]
    exact ih (fun u hu => h u (by simp [hu]))

theorem findFieldIdCore_eq_find (cs : List String) (l : List Field) :
    findFieldIdCore cs l = (l.find? (fieldMatches cs)).map Field.id := by
  induction l with
  | nil => rfl
  | cons f rest ih =>
    by_cases h : fieldMatches cs f = true
    · simp [findFieldIdCore, List.find?, h]
    · have h2 : fieldMatches cs f = false := by
        cases hb : fieldMatches cs f
        · rfl
        · exact absurd hb h
      simp [findFieldIdCore, List.find?, h2, ih]

theorem eqIgnoreAsciiCase_congr_right {a b : String}
    (h : eqIgnoreAsciiCase a b = true) (s : String) :
    eqIgnoreAsciiCase s a = eqIgnoreAsciiCase s b := by
  have hl : lowerStr a = lowerStr b := of_decide_eq_true h
  simp [eqIgnoreAsciiCase, hl]

theorem fieldMatches_forall2 {cs cs2 : List String}
    (h : List.Forall₂ (fun a b => eqIgnoreAsciiCase a b = true) cs cs2)
    (f : Field) : fieldMatches cs f = fieldMatches cs2 f := by
  induction h with
  | nil => rfl
  | cons hab htail ih =>
    simp only [fieldMatches, List.any_cons] at *
    rw [eqIgnoreAsciiCase_congr_right hab, ih]

theorem unestimatedBlock_total (m : List String) (sp : String)
    (iss : List Issue) (a : SprintAnalysis) :
    (unestimatedBlock m sp iss a).total_points = a.total_points := by
  unfold unestimatedBlock
  dsimp only
  repeat' split
  all_goals rfl

theorem unestimatedBlock_completed (m : List String) (sp : String)
    (iss : List Issue) (a : SprintAnalysis) :
    (unestimatedBlock m sp iss a).completed_points = a.completed_points := by
  unfold unestimatedBlock
  dsimp only
  repeat' split
  all_goals rfl

theorem unestimatedBlock_pct (m : List String) (sp : String)
    (iss : List Issue) (a : SprintAnalysis) :
    (unestimatedBlock m sp iss a).completion_percentage
      = a.completion_percentage := by
  unfold unestimatedBlock
  dsimp only
  repeat' split
  all_goals rfl

theorem unestimatedBlock_blocked (m : List String) (sp : String)
    (iss : List Issue) (a : SprintAnalysis) :
    (unestimatedBlock m sp iss a).blocked_issues = a.blocked_issues := by
  unfold unestimatedBlock
  dsimp only
  repeat' split
  all_goals rfl

theorem blockedBlock_total (m : List String) (iss : List Issue)
    (a : SprintAnalysis) :
    (blockedBlock m iss a).total_points = a.total_points := by
  unfold blockedBlock
  dsimp only
  repeat' split
  all_goals rfl

theorem blockedBlock_completed (m : List String) (iss : List Issue)
    (a : SprintAnalysis) :
    (blockedBlock m iss a).completed_points = a.completed_points := by
  unfold blockedBlock
  dsimp only
  repeat' split
  all_goals rfl

theorem blockedBlock_pct (m : List String) (iss : List Issue)
    (a : SprintAnalysis) :
    (blockedBlock m iss a).completion_percentage = a.completion_percentage := by
  unfold blockedBlock
  dsimp only
  repeat' split
  all_goals rfl

theorem velocityCompletionBlock_blocked (m : List String) (sp : String)
    (iss : List Issue) (a : SprintAnalysis) :
    (velocityCompletionBlock m sp iss a).blocked_issues = a.blocked_issues := by
  unfold velocityCompletionBlock
  dsimp only
  repeat' split
  all_goals rfl

theorem velocityCompletionBlock_completion (m : List String) (sp : String)
    (iss : List Issue) (a : SprintAnalysis)
    (hc : m.contains "completion" = true) :
    (velocityCompletionBlock m sp iss a).total_points
        = some (sumPoints sp iss).1
  ∧ (velocityCompletionBlock m sp iss a).completed_points
        = some (sumPoints sp iss).2
  ∧ (velocityCompletionBlock m sp iss a).completion_percentage
        = (if 0 < (sumPoints sp iss).1
           then some ((sumPoints sp iss).2 / (sumPoints sp iss).1 * 100)
           else none) := by
  unfold velocityCompletionBlock
  have hm : "completion" ∈ m := by simpa using hc
  simp [hm]

theorem blockedBlock_sets (m : List String) (iss : List Issue)
    (a : SprintAnalysis) (hb : m.contains "blocked" = true)
    (ha : a.blocked_issues = none) :
    (blockedBlock m iss a).blocked_issues
      = (if ((iss.filter isBlockedIssue).map Issue.key).isEmpty then none
         else some ((iss.filter isBlockedIssue).map Issue.key)) := by
  unfold blockedBlock
  rw [if_pos hb]
  dsimp only
  split
  · exact ha
  · rfl

/-! ## Claim theorems -/

/-- C1 counterexample: with the resolver's own candidate order
`["Story Points", "Story point estimate"]` and a catalog in which the
earlier candidate "Story Points" matches only the second field
(`customfield_9000`) while the later candidate matches the first field
(`customfield_10020`), resolution returns `customfield_10020` — the id of
the field matching the LATER candidate — refuting first-candidate-wins. -/
theorem c1_first_candidate_counterexample :
    fieldMatches ["Story Points"] (Field.mk "customfield_10020" "Story point estimate" none) = false
  ∧ fieldMatches ["Story Points"] (Field.mk "customfield_9000" "Story Points" none) = true
  ∧ fieldMatches ["Story point estimate"] (Field.mk "customfield_10020" "Story point estimate" none) = true
  ∧ findFieldIdCore ["Story Points", "Story point estimate"]
      [Field.mk "customfield_10020" "Story point estimate" none,
       Field.mk "customfield_9000" "Story Points" none] = some "customfield_10020"
  ∧ ¬ (findFieldIdCore ["Story Points", "Story point estimate"]
        [Field.mk "customfield_10020" "Story point estimate" none,
         Field.mk "customfield_9000" "Story Points" none] = some "customfield_9000") := by
  decide

/-- C1 (amended): field resolution scans the catalog in order and returns
the identifier of the first field whose display name case-insensitively
equals ANY candidate; catalog order, not candidate order, decides which
field wins. -/
theorem findFieldIdCore_catalog_order (cs : List String) (pre : List Field)
    (f : Field) (post : List Field)
    (hpre : ∀ g ∈ pre, fieldMatches cs g = false)
    (hf : fieldMatches cs f = true) :
    findFieldIdCore cs (pre ++ f :: post) = some f.id := by
  rw [findFieldIdCore_eq_find, find_of_prefix_fail _ pre f post hpre hf]
  rfl

/-- Witness for C1's amended theorem at a concrete catalog. -/
theorem findFieldIdCore_catalog_order_witness :
    findFieldIdCore ["Story Points", "Story point estimate"]
      ([Field.mk "priority" "Priority" none] ++
        Field.mk "customfield_10016" "story points" none ::
          [Field.mk "customfield_9000" "Story Points" none]) = some "customfield_10016" :=
  findFieldIdCore_catalog_order _ _ _ _ (by decide) (by decide)

/-- C3 counterexample: on a catalog where no field matches any candidate the
inner scan indeed finds nothing, but `find_story_points_field_id` still
produces the identifier `"customfield_10016"` — it does not return `None`. -/
theorem c3_no_match_counterexample :
    findFieldIdCore storyPointsCandidates [Field.mk "priority" "Priority" none] = none
  ∧ find_story_points_field_id [Field.mk "priority" "Priority" none] = "customfield_10016" := by
  decide

/-- C3 (amended): when no field's display name case-insensitively equals any
candidate, the scan yields no match and `find_story_points_field_id` falls
back to the hard-coded identifier `"customfield_10016"` instead of
returning `None`. -/
theorem find_story_points_fallback (fields : List Field)
    (h : ∀ f ∈ fields, fieldMatches storyPointsCandidates f = false) :
    find_story_points_field_id fields = "customfield_10016" := by
  unfold find_story_points_field_id
  rw [findFieldIdCore_eq_find, find_of_all_fail _ _ h]
  rfl

/-- Witness for C3's amended theorem at a concrete catalog. -/
theorem find_story_points_fallback_witness :
    find_story_points_field_id
      [Field.mk "summary" "Summary" none, Field.mk "priority" "Priority" none]
      = "customfield_10016" :=
  find_story_points_fallback _ (by decide)

/-- C6: name comparison is case-insensitive exact matching — candidate lists
that agree up to ASCII letter case resolve to the same identifier (or to no
match for both) on every catalog. -/
theorem findFieldIdCore_case_insensitive (cs cs2 : List String)
    (fields : List Field)
    (h : List.Forall₂ (fun a b => eqIgnoreAsciiCase a b = true) cs cs2) :
    findFieldIdCore cs fields = findFieldIdCore cs2 fields := by
  induction fields with
  | nil => rfl
  | cons f rest ih =>
    simp only [findFieldIdCore, fieldMatches_forall2 h f, ih]

/-- Witness for C6 at a concrete case permutation of "Story Points". -/
theorem findFieldIdCore_case_insensitive_witness :
    findFieldIdCore ["Story Points"]
        [Field.mk "customfield_10016" "story points" none]
      = findFieldIdCore ["sToRy PoInTs"]
          [Field.mk "customfield_10016" "story points" none]
  ∧ findFieldIdCore ["Story Points"]
        [Field.mk "customfield_10016" "story points" none]
      = some "customfield_10016" :=
  ⟨findFieldIdCore_case_insensitive _ _ _ (.cons (by decide) .nil), by decide⟩

/-- C7: story-points resolution is stateless — a run of `n` resolutions
against a gateway holding `n` queued catalogs consumes exactly one fetch per
call (the queue's remainder survives untouched) and the i-th result is the
pure resolution of the i-th fetched catalog alone: no resolver-owned cache
or previously fetched entity can influence it. -/
theorem storyPoints_resolution_stateless (cats : List (List Field))
    (rest : Gateway) :
    runStoryPointsResolutions cats.length (cats ++ rest)
      = (cats.map find_story_points_field_id, rest) := by
  induction cats with
  | nil => rfl
  | cons c cs ih =>
    simp [runStoryPointsResolutions, findStoryPointsCall, fetch_fields_internal, ih]

/-- C8: when the fetched catalog has no case-insensitive match for
"Story Points" or "Story point estimate" the resolution still succeeds with
the hard-coded `"customfield_10016"`; and when no requested metric needs
story points, sprint analysis uses `"customfield_10016"` with the gateway
left untouched (no catalog fetch). -/
theorem story_points_default_fallback_and_skip (fields : List Field)
    (metrics : List String) (gw : Gateway)
    (hnf : ∀ f ∈ fields, fieldMatches storyPointsCandidates f = false)
    (hm : metricsNeedStoryPoints metrics = false) :
    find_story_points_field_id fields = "customfield_10016"
  ∧ storyPointsFieldIdForMetrics metrics gw = some ("customfield_10016", gw) := by
  constructor
  · unfold find_story_points_field_id
    rw [findFieldIdCore_eq_find, find_of_all_fail _ _ hnf]
    rfl
  · simp [storyPointsFieldIdForMetrics, hm]

/-- Witness for C8 at a concrete catalog, metric list and gateway. -/
theorem story_points_default_fallback_and_skip_witness :
    find_story_points_field_id [Field.mk "priority" "Priority" none]
        = "customfield_10016"
  ∧ storyPointsFieldIdForMetrics ["blocked"]
        [[Field.mk "customfield_10020" "Story Points" none]]
      = some ("customfield_10016",
          [[Field.mk "customfield_10020" "Story Points" none]]) :=
  story_points_default_fallback_and_skip _ _ _ (by decide) (by decide)

/-- C9: with the "completion" metric requested, `total_points` and
`completed_points` are always reported as the loop's sums, and
`completion_percentage` is exactly the guarded division — it is
`(completed / total) * 100` when the total is positive and `none`
otherwise (in particular it stays `none` when the issues sum to zero
total story points). -/
theorem analyze_completion_division_guard (metrics : List String)
    (spFieldId : String) (sid : Int) (sn ss : String) (issues : List Issue)
    (hc : metrics.contains "completion" = true) :
    (analyzeSprintCore metrics spFieldId sid sn ss issues).total_points
        = some (sumPoints spFieldId issues).1
  ∧ (analyzeSprintCore metrics spFieldId sid sn ss issues).completed_points
        = some (sumPoints spFieldId issues).2
  ∧ (analyzeSprintCore metrics spFieldId sid sn ss issues).completion_percentage
        = (if 0 < (sumPoints spFieldId issues).1
           then some ((sumPoints spFieldId issues).2
                        / (sumPoints spFieldId issues).1 * 100)
           else none) := by
  unfold analyzeSprintCore
  simp only [blockedBlock_total, blockedBlock_completed, blockedBlock_pct,
    unestimatedBlock_total, unestimatedBlock_completed, unestimatedBlock_pct]
  exact velocityCompletionBlock_completion _ _ _ _ hc

/-- Witness for C9: a sprint whose issues sum to zero story points reports
`total_points = 0` but leaves `completion_percentage` at `none`. -/
theorem analyze_completion_division_guard_witness :
    (analyzeSprintCore ["completion"] "customfield_10016" 7 "Sprint 7"
        "active" []).total_points = some 0
  ∧ (analyzeSprintCore ["completion"] "customfield_10016" 7 "Sprint 7"
        "active" []).completion_percentage = none := by
  have h := analyze_completion_division_guard ["completion"] "customfield_10016"
    7 "Sprint 7" "active" [] (by decide)
  refine ⟨h.1, ?_⟩
  rw [h.2.2]
  decide

/-- C10: with the "blocked" metric requested, the reported blocked list is
exactly the issues whose lowercased status name contains the substring
"blocked" (an issue with no readable status name never qualifies), and the
`blocked_issues` field is omitted (`none`) exactly when that list is
empty. -/
theorem analyze_blocked_substring (metrics : List String) (spFieldId : String)
    (sid : Int) (sn ss : String) (issues : List Issue)
    (hb : metrics.contains "blocked" = true) :
    (analyzeSprintCore metrics spFieldId sid sn ss issues).blocked_issues
      = (if ((issues.filter blockedPerClaim).map Issue.key).isEmpty then none
         else some ((issues.filter blockedPerClaim).map Issue.key)) := by
  have hfe : issues.filter isBlockedIssue = issues.filter blockedPerClaim := by
    induction issues with
    | nil => rfl
    | cons i rest ih =>
      have hi : isBlockedIssue i = blockedPerClaim i := by
        unfold isBlockedIssue blockedPerClaim
        cases statusName i <;> rfl
      simp only [List.filter_cons, hi, ih]
  unfold analyzeSprintCore
  rw [← hfe]
  exact blockedBlock_sets _ _ _ hb
    (by rw [unestimatedBlock_blocked, velocityCompletionBlock_blocked])

/-- Witness for C10: "Blocked by vendor" counts as blocked, a `null` status
and a missing status field do not, and the nonempty list is reported. -/
theorem analyze_blocked_substring_witness :
    (analyzeSprintCore ["blocked"] "sp" 1 "S" "active"
        [Issue.mk "K1" [("status", JValue.obj [("name", JValue.str "Blocked by vendor")])],
         Issue.mk "K2" [("status", JValue.null)],
         Issue.mk "K3" []]).blocked_issues = some ["K1"] := by
  rw [analyze_blocked_substring ["blocked"] "sp" 1 "S" "active" _ (by decide)]
  decide

/-- C2: transition resolution runs three passes in fixed order with the
first success short-circuiting the rest — a first pass-1 (action-name) match
wins outright; with no pass-1 match, a first pass-2 (destination-name) match
wins; with neither, the result is the first pass-3 (category-bucket) match —
and the bucket map sends ToDo to "new", InProgress/InReview/Blocked to
"indeterminate", Done/Cancelled to "done". The returned identifier is the
transition to execute. -/
theorem resolveTransition_three_passes (target : Status) (ts : List Transition) :
    (∀ pre t post, ts = pre ++ t :: post → transNameMatches target t = true →
        (∀ u ∈ pre, transNameMatches target u = false) →
        resolveTransition target ts = some t.id)
  ∧ ((∀ t ∈ ts, transNameMatches target t = false) →
      ∀ pre t post, ts = pre ++ t :: post → transToNameMatches target t = true →
        (∀ u ∈ pre, transToNameMatches target u = false) →
        resolveTransition target ts = some t.id)
  ∧ ((∀ t ∈ ts, transNameMatches target t = false) →
      (∀ t ∈ ts, transToNameMatches target t = false) →
      resolveTransition target ts
        = (ts.find? (transCategoryMatches target)).map Transition.id)
  ∧ (Status.categoryBucket .ToDo = "new"
     ∧ Status.categoryBucket .InProgress = "indeterminate"
     ∧ Status.categoryBucket .InReview = "indeterminate"
     ∧ Status.categoryBucket .Blocked = "indeterminate"
     ∧ Status.categoryBucket .Done = "done"
     ∧ Status.categoryBucket .Cancelled = "done") := by
  refine ⟨?_, ?_, ?_, by decide⟩
  · intro pre t post hts ht hpre
    subst hts
    unfold resolveTransition
    rw [find_of_prefix_fail _ pre t post hpre ht]
  · intro hall pre t post hts ht hpre
    subst hts
    unfold resolveTransition
    rw [find_of_all_fail _ _ hall, find_of_prefix_fail _ pre t post hpre ht]
  · intro hall1 hall2
    unfold resolveTransition
    rw [find_of_all_fail _ _ hall1, find_of_all_fail _ _ hall2]

/-- Witness for C2 at the spec's own example: with the single transition
`{id:"21", name:"Start Progress", to:{name:"In Progress"}}` and target
InProgress, pass 1 fails and pass 2 resolves `"21"`. -/
theorem resolveTransition_three_passes_witness :
    resolveTransition .InProgress
        [Transition.mk "21" "Start Progress" (TransitionTo.mk "In Progress" none)]
      = some "21" :=
  (resolveTransition_three_passes .InProgress _).2.1 (by decide)
    [] _ [] rfl (by decide) (by decide)

/-- C4: issue-type resolution scans the project's types linearly and returns
the id and subtask flag of the first entry whose `name` or `untranslatedName`
equals the requested label case-insensitively; in particular "bug" matches
an entry named "Bug" in any case, and matches when only
`untranslatedName = "Bug"` is set. -/
theorem resolveIssueType_first_match (label : String)
    (types : List IssueTypeDescriptor) :
    (∀ pre t post, types = pre ++ t :: post → issueTypeMatches label t = true →
        (∀ u ∈ pre, issueTypeMatches label u = false) →
        resolveIssueType label types = some (t.id, t.subtask))
  ∧ (∀ tid sub, issueTypeMatches "bug" (IssueTypeDescriptor.mk tid "Bug" none sub) = true)
  ∧ (∀ tid sub, issueTypeMatches "bug" (IssueTypeDescriptor.mk tid "BUG" none sub) = true)
  ∧ (∀ tid sub, issueTypeMatches "bug"
        (IssueTypeDescriptor.mk tid "Fehler" (some "Bug") sub) = true) := by
  have hbug : eqIgnoreAsciiCase "Bug" "bug" = true := by decide
  have hBUG : eqIgnoreAsciiCase "BUG" "bug" = true := by decide
  have hfehler : eqIgnoreAsciiCase "Fehler" "bug" = false := by decide
  refine ⟨?_, ?_, ?_, ?_⟩
  · intro pre t post hts ht hpre
    subst hts
    unfold resolveIssueType
    rw [find_of_prefix_fail _ pre t post hpre ht]
    rfl
  · intro tid sub
    simp [issueTypeMatches, hbug]
  · intro tid sub
    simp [issueTypeMatches, hBUG]
  · intro tid sub
    simp [issueTypeMatches, hbug, hfehler]

/-- Witness for C4 at a concrete catalog: "bug" skips "Task" and resolves
the entry named "Bug", returning its id and subtask flag. -/
theorem resolveIssueType_first_match_witness :
    resolveIssueType "bug"
        ([IssueTypeDescriptor.mk "10000" "Task" none false] ++
          IssueTypeDescriptor.mk "10004" "Bug" none false ::
            [IssueTypeDescriptor.mk "10005" "Bug" none true])
      = some ("10004", false) :=
  (resolveIssueType_first_match "bug" _).1
    [IssueTypeDescriptor.mk "10000" "Task" none false] _
    [IssueTypeDescriptor.mk "10005" "Bug" none true] rfl (by decide) (by decide)

/-- C5: assignee resolution compares the token case-insensitively against
two sentinels — "me" yields the current user's identifier from the lookup,
"unassigned" yields the explicit empty-string sentinel (which is distinct
from resolution failure `none`) — and every other token passes through
unchanged with no validation. -/
theorem resolveAssignee_sentinels (token currentUserId : String) :
    (eqIgnoreAsciiCase token "me" = true →
        resolveAssignee token currentUserId = some currentUserId)
  ∧ (eqIgnoreAsciiCase token "unassigned" = true →
      resolveAssignee token currentUserId = some ""
        ∧ (some "" : Option String) ≠ none)
  ∧ (eqIgnoreAsciiCase token "me" = false →
      eqIgnoreAsciiCase token "unassigned" = false →
      resolveAssignee token currentUserId = some token) := by
  refine ⟨?_, ?_, ?_⟩
  · intro hme
    simp [resolveAssignee, hme]
  · intro hun
    have hl : lowerStr token = lowerStr "unassigned" := of_decide_eq_true hun
    have hme : eqIgnoreAsciiCase token "me" = false := by
      apply decide_eq_false
      rw [hl]
      decide
    refine ⟨?_, by simp⟩
    simp [resolveAssignee, hme, hun]
  · intro hme hun
    simp [resolveAssignee, hme, hun]

/-- Witness for C5: "ME" resolves to the looked-up user, "Unassigned" to the
empty-string sentinel, and a raw account id passes through unchanged. -/
theorem resolveAssignee_sentinels_witness :
    resolveAssignee "ME" "acct-1" = some "acct-1"
  ∧ resolveAssignee "Unassigned" "acct-1" = some ""
  ∧ resolveAssignee "5b10a2844c20165700ede21g" "acct-1"
      = some "5b10a2844c20165700ede21g" :=
  ⟨(resolveAssignee_sentinels "ME" "acct-1").1 (by decide),
   ((resolveAssignee_sentinels "Unassigned" "acct-1").2.1 (by decide)).1,
   (resolveAssignee_sentinels "5b10a2844c20165700ede21g" "acct-1").2.2
     (by decide) (by decide)⟩

end McpJira
